import Mathlib

/-!
Shallow embedding of the armiarma persistence tier: the postgresql batched
persister (DBClient: NewDBClient, launchPersister, persistBatchFn, Close) and
the metrics Peer operations (ConnectionAttemptEvent, GetNumOfMsgFromTopic).
Timestamps are modelled as naturals, errors as their message strings, and the
relational store as an explicit state recording begun and committed
transactions.
-/

namespace Armiarma

/-- A parameterized write operation, tagged by the SQL helper the persister
invokes on the DBClient and the arguments it draws from the record. -/
inductive Op where
  | upsertHostInfo (hostId : String)
  | updatePeerInfo (peerId : String)
  | upsertEthereumNodeStatus (timestamp : Nat)
  | upsertEthereumNodeMetadata (timestamp : Nat)
  | upsertEnrInfo (nodeId : String)
  | updateConnAttempt (peerId : String)
  | insertNewConnEvent (peerId : String) (discTime : Nat)
  | updateLastActivityTimestamp (peerId : String) (discTime : Nat)
  | upsertIpInfo (ip : String)
  deriving DecidableEq

/-- A typed attribute attached to a HostInfo record, one constructor per case of
the inner type switch over hostInfo.Attr in launchPersister; every attribute
value outside the three recognized variants is collapsed into unrecognized. -/
inductive Attr where
  | beaconStatusStamped (timestamp : Nat)
  | beaconMetadataStamped (timestamp : Nat)
  | enrNode (nodeId : String)
  | unrecognized (description : String)
  deriving DecidableEq

/-- A record received on the persistC channel, one constructor per case of the
outer type switch in launchPersister. The identified flag models the result of
hostInfo.IsHostIdentified, and attrs lists the hostInfo.Attr map entries in
iteration order (the Go map order is unspecified). -/
inductive Record where
  | hostInfo (hostId : String) (identified : Bool) (peerId : String)
      (attrs : List (String × Attr))
  | peerInfo (peerId : String)
  | connectionAttempt (peerId : String)
  | connEvent (peerId : String) (discTime : Nat)
  | ipInfo (ip : String)
  | unrecognized (description : String)
  deriving DecidableEq

/-- Operations queued for one attribute of a HostInfo; an unrecognized
attribute queues nothing (the code only logs a warning). -/
def attrOps : String × Attr → List Op
  | (_, Attr.beaconStatusStamped ts) => [Op.upsertEthereumNodeStatus ts]
  | (_, Attr.beaconMetadataStamped ts) => [Op.upsertEthereumNodeMetadata ts]
  | (_, Attr.enrNode nid) => [Op.upsertEnrInfo nid]
  | (_, Attr.unrecognized _) => []

/-- The write operations one consumed record appends to the batch, in the
order of the batchQueryFn calls of the corresponding switch case. -/
def recordOps : Record → List Op
  | Record.hostInfo hid identified pid attrs =>
      Op.upsertHostInfo hid ::
        ((if identified then [Op.updatePeerInfo pid] else []) ++
          attrs.flatMap attrOps)
  | Record.peerInfo pid => [Op.updatePeerInfo pid]
  | Record.connectionAttempt pid => [Op.updateConnAttempt pid]
  | Record.connEvent pid t =>
      [Op.insertNewConnEvent pid t, Op.updateLastActivityTimestamp pid t]
  | Record.ipInfo ip => [Op.upsertIpInfo ip]
  | Record.unrecognized _ => []

/-- Whether an attribute is one of the three recognized variants. -/
def isRecognizedAttr : Attr → Bool
  | Attr.unrecognized _ => false
  | _ => true

def batchSize : Nat := 256

/-- isReadyToPersistFn from launchPersister: the batch length reached the
batchSize bound. -/
def isReadyToPersistFn (batch : List Op) : Bool :=
  decide (batchSize ≤ batch.length)

/-- Errors are modelled by their message strings. -/
abbrev Err := String

def noQueryResult : Err := "no result"

/-- Semantics of errors.Wrap from the pkg/errors library: wrapping a nil error
yields nil, wrapping a non-nil error prefixes the message. -/
def errorsWrap (e : Option Err) (msg : String) : Option Err :=
  match e with
  | none => none
  | some m => some (msg ++ ": " ++ m)

/-- What the pgx pool answers during one persistBatchFn round: the outcome of
Begin, the first non-nil error produced by repeated batchResults.Query calls
(the clean terminal sentinel is the "no result" message), and the outcome of
tx.Commit. -/
structure StoreBehavior where
  beginErr : Option Err
  queryErr : Err
  commitErr : Option Err
  deriving DecidableEq

/-- Observable state of the relational store: the transactions committed so
far, in order, and how many transactions were begun. -/
structure Store where
  committed : List (List Op)
  begun : Nat
  deriving DecidableEq

/-- persistBatchFn from launchPersister. An empty batch returns nil at once
with no store interaction. Otherwise a transaction is begun, the batch is sent
and results are pulled until qerr is non-nil; when qerr is not the "no result"
sentinel the function returns errorsWrap applied to the err variable of Begin,
which is nil on this path, and does not commit; on the clean sentinel it
commits and returns the outcome of tx.Commit. -/
def persistBatchFn (b : StoreBehavior) (s : Store) (batch : List Op) :
    Store × Option Err :=
  if batch.length = 0 then (s, none)
  else
    match b.beginErr with
    | some e => (s, errorsWrap (some e) "unable to persist batch")
    | none =>
      let s1 : Store := { committed := s.committed, begun := s.begun + 1 }
      if b.queryErr ≠ noQueryResult then
        (s1, errorsWrap none "unable to persist betch because an error on row")
      else
        match b.commitErr with
        | some e => (s1, some e)
        | none => ({ committed := s1.committed ++ [batch], begun := s1.begun }, none)

/-- One iteration of the persisting loop in which a record arrived on persistC:
the operations of the record are appended, then isReadyToPersistFn is evaluated
once, and on trigger persistBatchFn runs and the batch is replaced by a fresh
empty one. The third component is some e when a flush was attempted, with e the
value persistBatchFn returned, and none when no flush happened. -/
def consumeRecord (b : StoreBehavior) (s : Store) (batch : List Op)
    (r : Record) : Store × List Op × Option (Option Err) :=
  let batch1 := batch ++ recordOps r
  if isReadyToPersistFn batch1 then
    let res := persistBatchFn b s batch1
    (res.1, [], some res.2)
  else
    (s, batch1, none)

/-- One iteration of the persisting loop in which the flushing ticker fired:
persistBatchFn runs on whatever is accumulated and the batch is replaced by a
fresh empty one, whatever the outcome. -/
def tickerFlush (b : StoreBehavior) (s : Store) (batch : List Op) :
    Store × List Op × Option Err :=
  let res := persistBatchFn b s batch
  (res.1, [], res.2)

/-- The persisting loop after shutdown was signalled, that is with
readyToFinish already true: each iteration first tests readyToFinish together
with an empty persistC and then breaks the persistingLoop, otherwise it
consumes one queued record (the 1 second flushing ticker is taken as not
firing during the drain). The result is the store and the open batch at the
moment the loop breaks; note that no flush follows the break in the source. -/
def drainLoop (b : StoreBehavior) : Store → List Op → List Record → Store × List Op
  | s, batch, [] => (s, batch)
  | s, batch, r :: rs =>
      let step := consumeRecord b s batch r
      drainLoop b step.1 step.2.1 rs

/-- The externally visible actions NewDBClient can perform, in order. -/
inductive StartAction where
  | connect
  | ping
  | initTables
  | launchPersister
  deriving DecidableEq

/-- What the environment answers to the constructor: the outcome of
pgxpool.Connect, of pPool.Ping, and of initTables. -/
structure ConnBehavior where
  connectErr : Option Err
  pingErr : Option Err
  initErr : Option Err
  deriving DecidableEq

/-- NewDBClient: the list of actions performed in order, and the returned
error (none means the client was composed and launchPersister was started). -/
def NewDBClient (b : ConnBehavior) (loginStr : String) (initialized : Bool) :
    List StartAction × Option Err :=
  if loginStr.length = 0 then ([], some "empty db-endpoint provided")
  else
    match b.connectErr with
    | some e => ([StartAction.connect], some e)
    | none =>
      match b.pingErr with
      | some e =>
          ([StartAction.connect, StartAction.ping],
            errorsWrap (some e) "unable to ping db")
      | none =>
        if initialized then
          match b.initErr with
          | some e =>
              ([StartAction.connect, StartAction.ping, StartAction.initTables],
                errorsWrap (some e)
                  ("unable to initialize the SQL tables at " ++ loginStr))
          | none =>
              ([StartAction.connect, StartAction.ping, StartAction.initTables,
                StartAction.launchPersister], none)
        else
          ([StartAction.connect, StartAction.ping,
            StartAction.launchPersister], none)

/-- Per-topic message counters of a Peer (metrics package); times are modelled
as naturals and Count is a Go uint64. -/
structure MessageMetric where
  Count : Nat
  FirstMessageTime : Nat
  LastMessageTime : Nat
  deriving DecidableEq

/-- The fields of the metrics Peer struct that the verified operations touch;
the MessageMetrics Go map is modelled as an association list. -/
structure Peer where
  PeerId : String
  IsConnected : Bool
  Attempted : Bool
  Succeed : Bool
  Attempts : Nat
  Error : String
  MessageMetrics : List (String × MessageMetric)
  deriving DecidableEq

/-- NewPeer from metrics/peer.go, restricted to the modelled fields. -/
def NewPeer (peerId : String) : Peer :=
  { PeerId := peerId, IsConnected := false, Attempted := false,
    Succeed := false, Attempts := 0, Error := "None", MessageMetrics := [] }

/-- Modulus of the Go uint64 type of the Attempts counter. -/
def uint64Mod : Nat := 2 ^ 64

/-- ConnectionAttemptEvent from metrics/peer.go; the uint64 increment of
Attempts wraps modulo 2 ^ 64, and the external helper utils.FilterError is
passed in as a parameter. -/
def ConnectionAttemptEvent (filterError : String → String) (pm : Peer)
    (succeed : Bool) (err : String) : Peer :=
  let pm1 := { pm with Attempts := (pm.Attempts + 1) % uint64Mod }
  let pm2 := if !pm1.Attempted then { pm1 with Attempted := true } else pm1
  if succeed then { pm2 with Succeed := true, Error := "None" }
  else { pm2 with Error := filterError err }

/-- GetNumOfMsgFromTopic from metrics/peer.go; the external helper
utils.ShortToFullTopicName is passed in as a parameter, and the nil pointer
returned by a missing Go map entry is the none case of the lookup. -/
def GetNumOfMsgFromTopic (shortToFullTopicName : String → String) (pm : Peer)
    (shortTopic : String) : Nat :=
  match List.lookup (shortToFullTopicName shortTopic) pm.MessageMetrics with
  | some m => m.Count
  | none => 0

theorem attrOps_length (p : String × Attr) :
    (attrOps p).length = (if isRecognizedAttr p.2 then 1 else 0) := by
  obtain ⟨n, a⟩ := p
  cases a <;> rfl

theorem flatMap_attrOps_length (attrs : List (String × Attr)) :
    (attrs.flatMap attrOps).length
      = attrs.countP (fun p => isRecognizedAttr p.2) := by
  induction attrs with
  | nil => rfl
  | cons p t ih =>
    rw [List.flatMap_cons, List.length_append, List.countP_cons, ih,
      attrOps_length p]
    omega

theorem updatePeerInfo_not_mem_attrOps (pid : String) (p : String × Attr) :
    Op.updatePeerInfo pid ∉ attrOps p := by
  obtain ⟨n, a⟩ := p
  cases a <;> simp [attrOps]

theorem updatePeerInfo_not_mem_flatMap (pid : String)
    (attrs : List (String × Attr)) :
    Op.updatePeerInfo pid ∉ attrs.flatMap attrOps := by
  rw [List.mem_flatMap]
  rintro ⟨p, _, hmem⟩
  exact updatePeerInfo_not_mem_attrOps pid p hmem

/-- C5: a ConnectionEvent record appends exactly two operations, in order the
insert into conn_event and then the update of last_activity of the peer,
derived from the disconnection timestamp of the event. -/
theorem connEvent_two_ops (pid : String) (t : Nat) :
    recordOps (Record.connEvent pid t)
      = [Op.insertNewConnEvent pid t, Op.updateLastActivityTimestamp pid t] :=
  rfl

/-- C7: persistBatchFn on an empty batch returns at once with no error, opens
no transaction and leaves the store state unchanged. -/
theorem persist_empty_batch_noop (b : StoreBehavior) (s : Store) :
    persistBatchFn b s [] = (s, none) :=
  rfl

/-- C3: at a non-empty batch where result iteration surfaces the error message
"deadlock detected" instead of the "no result" sentinel, the commit is indeed
skipped, but the returned error is none rather than a non-nil wrapped error:
the source applies errors.Wrap to the nil error of Begin instead of the query
error, so the failure is reported as success to the caller. -/
theorem query_error_yields_nil_error :
    persistBatchFn ⟨none, "deadlock detected", none⟩ ⟨[], 0⟩
        [Op.upsertIpInfo "1.2.3.4"]
      = (⟨[], 1⟩, none) :=
  rfl

/-- C1: with shutdown already signalled, an empty open batch and a single
queued ConnectionEvent, the drain consumes the queue but the persisting loop
then breaks with the two pending operations still in the batch and with zero
transactions begun or committed: no final commit of the non-empty remaining
batch is attempted before the persister stops, and Close, which only waits for
the worker, returns without any commit attempt. -/
theorem drain_exits_without_final_flush :
    drainLoop ⟨none, noQueryResult, none⟩ ⟨[], 0⟩ [] [Record.connEvent "peer" 7]
      = (⟨[], 0⟩,
          [Op.insertNewConnEvent "peer" 7,
            Op.updateLastActivityTimestamp "peer" 7]) :=
  rfl

/-- C4: a HostInfo record appends exactly 1 + (1 if the host is identified
else 0) + (number of recognized attributes) operations, the upsert of
host_info is always first, the peer_info operation is present exactly when the
host is identified, and an unrecognized attribute contributes no operation. -/
theorem hostInfo_fanout (hid pid : String) (identified : Bool)
    (attrs : List (String × Attr)) :
    (recordOps (Record.hostInfo hid identified pid attrs)).length
        = 1 + (if identified then 1 else 0)
            + attrs.countP (fun p => isRecognizedAttr p.2) ∧
    (recordOps (Record.hostInfo hid identified pid attrs)).head?
        = some (Op.upsertHostInfo hid) ∧
    (Op.updatePeerInfo pid ∈ recordOps (Record.hostInfo hid identified pid attrs)
        ↔ identified = true) := by
  refine ⟨?_, ?_, ?_⟩
  · rw [recordOps]
    simp only [List.length_cons, List.length_append,
      flatMap_attrOps_length attrs]
    cases identified <;> simp <;> omega
  · rw [recordOps]
    rfl
  · rw [recordOps]
    have hattr := updatePeerInfo_not_mem_flatMap pid attrs
    cases identified <;> simp_all

theorem consumeRecord_pos (b : StoreBehavior) (s : Store) (batch : List Op)
    (r : Record) (hc : isReadyToPersistFn (batch ++ recordOps r) = true) :
    consumeRecord b s batch r
      = ((persistBatchFn b s (batch ++ recordOps r)).1, [],
          some (persistBatchFn b s (batch ++ recordOps r)).2) := by
  simp [consumeRecord, hc]

theorem consumeRecord_neg (b : StoreBehavior) (s : Store) (batch : List Op)
    (r : Record) (hc : isReadyToPersistFn (batch ++ recordOps r) = false) :
    consumeRecord b s batch r = (s, batch ++ recordOps r, none) := by
  simp [consumeRecord, hc]

set_option maxRecDepth 8192 in
/-- C2 counterexample: with an open batch of 255 operations, consuming one
ConnectionEvent appends two operations before the size trigger is evaluated
even once, so the commit produced by the flush holds 257 operations: the
trigger is not evaluated after every append, and the batch length exceeds the
256 bound before a flush is attempted. -/
theorem size_trigger_not_per_append_cex :
    ((consumeRecord ⟨none, noQueryResult, none⟩ ⟨[], 0⟩
          (List.replicate 255 (Op.upsertIpInfo "10.0.0.1"))
          (Record.connEvent "peer" 7)).1.committed.map List.length = [257]) ∧
      256 < 257 :=
  ⟨rfl, by norm_num⟩

/-- C2 amended: the size trigger is evaluated once per consumed record, after
all of the operations of that record were appended, and whenever the batch has
then reached the 256 bound a flush is attempted synchronously before the next
record is consumed and the batch is reset; hence between records the open
batch always holds fewer than 256 operations, and at flush time it exceeds the
bound by at most the fan-out of the last record minus one. -/
theorem size_trigger_per_record (b : StoreBehavior) (s : Store)
    (batch : List Op) (r : Record) (h : batch.length < batchSize) :
    (consumeRecord b s batch r).2.1.length < batchSize ∧
    ((consumeRecord b s batch r).2.2.isSome = true ↔
      batchSize ≤ batch.length + (recordOps r).length) ∧
    ((consumeRecord b s batch r).2.2.isSome = true →
      (consumeRecord b s batch r).2.1 = [] ∧
        batch.length + (recordOps r).length
          < batchSize + (recordOps r).length) := by
  have hb : 0 < batchSize := by norm_num [batchSize]
  have hiff : isReadyToPersistFn (batch ++ recordOps r) = true
      ↔ batchSize ≤ batch.length + (recordOps r).length := by
    simp [isReadyToPersistFn]
  by_cases hc : isReadyToPersistFn (batch ++ recordOps r) = true
  · rw [consumeRecord_pos b s batch r hc]
    have hc' := hiff.mp hc
    exact ⟨by simpa using hb, ⟨fun _ => hc', fun _ => rfl⟩,
      fun _ => ⟨rfl, by omega⟩⟩
  · rw [consumeRecord_neg b s batch r (by simpa using hc)]
    have hc' : ¬ batchSize ≤ batch.length + (recordOps r).length :=
      fun hle => hc (hiff.mpr hle)
    refine ⟨by simpa [List.length_append] using by omega, ?_, ?_⟩
    · simp only [Option.isSome_none]
      exact ⟨fun hfalse => by simp at hfalse, fun hle => absurd hle hc'⟩
    · intro hfalse
      simp at hfalse

theorem size_trigger_per_record_witness :
    (List.length ([] : List Op) < batchSize) ∧
    ((consumeRecord ⟨none, noQueryResult, none⟩ ⟨[], 0⟩ []
        (Record.connEvent "p" 0)).2.1.length < batchSize ∧
    ((consumeRecord ⟨none, noQueryResult, none⟩ ⟨[], 0⟩ []
        (Record.connEvent "p" 0)).2.2.isSome = true ↔
      batchSize ≤ List.length ([] : List Op)
        + (recordOps (Record.connEvent "p" 0)).length) ∧
    ((consumeRecord ⟨none, noQueryResult, none⟩ ⟨[], 0⟩ []
        (Record.connEvent "p" 0)).2.2.isSome = true →
      (consumeRecord ⟨none, noQueryResult, none⟩ ⟨[], 0⟩ []
          (Record.connEvent "p" 0)).2.1 = [] ∧
        List.length ([] : List Op) + (recordOps (Record.connEvent "p" 0)).length
          < batchSize + (recordOps (Record.connEvent "p" 0)).length)) :=
  ⟨by norm_num [batchSize],
    size_trigger_per_record ⟨none, noQueryResult, none⟩ ⟨[], 0⟩ []
      (Record.connEvent "p" 0) (by norm_num [batchSize])⟩

/-- C6: after every flush attempt the open batch is reset to empty whether the
commit succeeded or failed: the ticker flush always leaves an empty batch, and
whenever the size-triggered path attempted a flush the batch is empty
afterwards, so no operation of a failed flush is retried or re-appended. -/
theorem flush_resets_batch (b : StoreBehavior) (s : Store) (batch : List Op)
    (r : Record) :
    (tickerFlush b s batch).2.1 = [] ∧
    ((consumeRecord b s batch r).2.2.isSome = true →
      (consumeRecord b s batch r).2.1 = []) := by
  refine ⟨rfl, ?_⟩
  by_cases hc : isReadyToPersistFn (batch ++ recordOps r) = true
  · rw [consumeRecord_pos b s batch r hc]
    intro _
    rfl
  · rw [consumeRecord_neg b s batch r (by simpa using hc)]
    intro hfalse
    simp at hfalse

set_option maxRecDepth 8192 in
theorem flush_resets_batch_witness :
    (consumeRecord ⟨none, "connection reset", some "commit failed"⟩ ⟨[], 0⟩
        (List.replicate 255 (Op.upsertIpInfo "ip"))
        (Record.connEvent "p" 0)).2.2.isSome = true ∧
    (consumeRecord ⟨none, "connection reset", some "commit failed"⟩ ⟨[], 0⟩
        (List.replicate 255 (Op.upsertIpInfo "ip"))
        (Record.connEvent "p" 0)).2.1 = [] :=
  ⟨rfl,
    (flush_resets_batch ⟨none, "connection reset", some "commit failed"⟩
      ⟨[], 0⟩ (List.replicate 255 (Op.upsertIpInfo "ip"))
      (Record.connEvent "p" 0)).2 rfl⟩

/-- C8: the constructor fails fast: with an empty connection string, or a
failed connection, or a failed ping, NewDBClient returns a non-nil error and
launchPersister is never started; with an empty connection string no store
action at all is performed. -/
theorem constructor_fail_fast (b : ConnBehavior) (loginStr : String)
    (initialized : Bool)
    (h : loginStr = "" ∨ b.connectErr.isSome = true ∨ b.pingErr.isSome = true) :
    (NewDBClient b loginStr initialized).2.isSome = true ∧
    StartAction.launchPersister ∉ (NewDBClient b loginStr initialized).1 ∧
    (loginStr = "" → (NewDBClient b loginStr initialized).1 = []) := by
  obtain ⟨ce, pe, ie⟩ := b
  unfold NewDBClient
  by_cases hl : loginStr.length = 0
  · simp [hl]
  · have hne : ¬ loginStr = "" := fun he => hl (by simp [he])
    rcases h with h | h | h
    · exact absurd h hne
    · cases ce with
      | none => simp at h
      | some e => simp [hl, hne]
    · cases ce with
      | some e => simp [hl, hne]
      | none =>
        cases pe with
        | none => simp at h
        | some e => simp [hl, hne, errorsWrap]

theorem constructor_fail_fast_witness :
    (("" : String) = "" ∨
      (ConnBehavior.mk none none none).connectErr.isSome = true ∨
      (ConnBehavior.mk none none none).pingErr.isSome = true) ∧
    ((NewDBClient ⟨none, none, none⟩ "" true).2.isSome = true ∧
      StartAction.launchPersister ∉ (NewDBClient ⟨none, none, none⟩ "" true).1 ∧
      (("" : String) = "" → (NewDBClient ⟨none, none, none⟩ "" true).1 = [])) :=
  ⟨Or.inl rfl, constructor_fail_fast ⟨none, none, none⟩ "" true (Or.inl rfl)⟩

/-- C9 counterexample: Attempts is a Go uint64, so at the value 2 ^ 64 - 1 a
connection attempt wraps the counter to 0 instead of increasing it by exactly
1. -/
theorem connection_attempt_wrap_cex :
    (ConnectionAttemptEvent id
        { NewPeer "p" with Attempts := uint64Mod - 1 } true "").Attempts
      ≠ ({ NewPeer "p" with Attempts := uint64Mod - 1 } : Peer).Attempts + 1 := by
  decide

/-- C9 amended: every connection attempt sets Attempted to true and increments
Attempts modulo 2 ^ 64 — by exactly 1 whenever the counter is below
2 ^ 64 - 1 — and on success sets Succeed and resets Error to "None", while on
failure it stores the filtered error string and leaves Succeed unchanged. -/
theorem connection_attempt_event_spec (filterError : String → String)
    (pm : Peer) (succeed : Bool) (err : String) :
    (ConnectionAttemptEvent filterError pm succeed err).Attempts
        = (pm.Attempts + 1) % uint64Mod ∧
    (pm.Attempts < uint64Mod - 1 →
      (ConnectionAttemptEvent filterError pm succeed err).Attempts
        = pm.Attempts + 1) ∧
    (ConnectionAttemptEvent filterError pm succeed err).Attempted = true ∧
    (succeed = true →
      (ConnectionAttemptEvent filterError pm succeed err).Succeed = true ∧
      (ConnectionAttemptEvent filterError pm succeed err).Error = "None") ∧
    (succeed = false →
      (ConnectionAttemptEvent filterError pm succeed err).Error
          = filterError err ∧
      (ConnectionAttemptEvent filterError pm succeed err).Succeed
          = pm.Succeed) := by
  have hu : uint64Mod = 18446744073709551616 := by norm_num [uint64Mod]
  obtain ⟨pid, ic, att, suc, n, er, mm⟩ := pm
  refine ⟨?_, ?_, ?_, ?_, ?_⟩
  · cases succeed <;> cases att <;> rfl
  · intro hlt
    have hlt' : n < uint64Mod - 1 := hlt
    have hn : (n + 1) % uint64Mod = n + 1 := by
      apply Nat.mod_eq_of_lt
      omega
    cases succeed <;> cases att <;> simpa [ConnectionAttemptEvent] using hn
  · cases succeed <;> cases att <;> rfl
  · intro hs
    subst hs
    cases att <;> exact ⟨rfl, rfl⟩
  · intro hs
    subst hs
    cases att <;> exact ⟨rfl, rfl⟩

theorem connection_attempt_event_spec_witness :
    (NewPeer "p").Attempts < uint64Mod - 1 ∧
    (ConnectionAttemptEvent id (NewPeer "p") true "").Attempts
      = (NewPeer "p").Attempts + 1 :=
  ⟨by decide,
    (connection_attempt_event_spec id (NewPeer "p") true "").2.1 (by decide)⟩

/-- C10: looking up the message count of a topic for which no metric entry was
recorded is safe and returns 0: the missing-entry branch of
GetNumOfMsgFromTopic handles the absent key. -/
theorem getNumOfMsgFromTopic_absent (shortToFullTopicName : String → String)
    (pm : Peer) (shortTopic : String)
    (h : List.lookup (shortToFullTopicName shortTopic) pm.MessageMetrics
      = none) :
    GetNumOfMsgFromTopic shortToFullTopicName pm shortTopic = 0 := by
  unfold GetNumOfMsgFromTopic
  rw [h]

theorem getNumOfMsgFromTopic_absent_witness :
    List.lookup ((fun s => s) "BeaconBlock") (NewPeer "p").MessageMetrics
      = none ∧
    GetNumOfMsgFromTopic (fun s => s) (NewPeer "p") "BeaconBlock" = 0 :=
  ⟨rfl, getNumOfMsgFromTopic_absent (fun s => s) (NewPeer "p") "BeaconBlock" rfl⟩

end Armiarma
